import Mathlib

/-!
Shallow embedding of the MinIO hardware-calculator data pipeline:
`scripts/convert_to_json.py` (extractor/normalizer) and
`scripts/validate_data.py` (validator).

Python strings are Lean `String` (manipulated as `List Char`); nullable
values are `Option`; numbers are `Rat` (for float-valued fields) or `Int`
(for integer-valued fields); a Python expression that may raise is an
`Except Unit` value.
-/

namespace MinioHW

/-- Python truthiness of a nullable string: `None` and the empty string are
falsy, every other string is truthy. -/
def truthyS : Option String → Bool
  | none => false
  | some s => s ≠ ""

/-- Python truthiness of a nullable integer: `None` and `0` are falsy. -/
def truthyZ : Option Int → Bool
  | none => false
  | some n => n ≠ 0

/-- Python `a or b` on nullable strings: returns `a` when truthy, else `b`. -/
def pyOrS (a b : Option String) : Option String :=
  if truthyS a then a else b

/-- Python `a or b` on nullable integers: returns `a` when truthy, else `b`. -/
def pyOrZ (a b : Option Int) : Option Int :=
  if truthyZ a then a else b

/-- Python `x or 0` on a nullable integer (used for the `preferred` field):
`None` and `0` both give `0`. -/
def pyOrZero (a : Option Int) : Int := a.getD 0

/-- Substring test for a two-character needle, as in Python
`needle in haystack` for the unit suffixes TB, GB, PB and the slash. -/
def contains2 (p q : Char) : List Char → Bool
  | [] => false
  | [_] => false
  | a :: b :: rest => (a = p && b = q) || contains2 p q (b :: rest)

/-- Removal of every (left-to-right, non-overlapping) occurrence of a
two-character needle, as in Python `haystack.replace(needle, "")`. -/
def replace2 (p q : Char) : List Char → List Char
  | [] => []
  | [c] => [c]
  | a :: b :: rest =>
    if a = p && b = q then replace2 p q rest
    else a :: replace2 p q (b :: rest)

/-- Numeric value of a digit string (most significant first). -/
def digitsToNat (l : List Char) : Nat :=
  l.foldl (fun acc c => 10 * acc + (c.toNat - ('0').toNat)) 0

/-- Unsigned decimal literal: digits with an optional fractional part,
requiring at least one digit overall (as Python `float` accepts
`"12"`, `"12.5"`, `".5"`, `"5."` and rejects `"."` and `""`). -/
def parseUnsignedFloat (l : List Char) : Option Rat :=
  let intPart := l.takeWhile Char.isDigit
  let rest := l.dropWhile Char.isDigit
  match rest with
  | [] => if intPart.isEmpty then none else some (digitsToNat intPart : Rat)
  | '.' :: frac =>
    if frac.all Char.isDigit && !(intPart.isEmpty && frac.isEmpty) then
      some ((digitsToNat intPart : Rat) + (digitsToNat frac : Rat) / (10 : Rat) ^ frac.length)
    else none
  | _ => none

/-- Modelled Python builtin `float(s)` on strings: surrounding whitespace is
ignored, an optional sign precedes a decimal literal; any other string raises
(`none` here). Exponents, `inf`/`nan` and digit underscores are outside the
inputs this pipeline sees and are not modelled. -/
def pyFloat (l : List Char) : Option Rat :=
  let t := (l.dropWhile Char.isWhitespace).reverse.dropWhile Char.isWhitespace |>.reverse
  match t with
  | '-' :: rest => (parseUnsignedFloat rest).map (fun q => -q)
  | '+' :: rest => parseUnsignedFloat rest
  | _ => parseUnsignedFloat t

/-- Modelled Python builtin `int(s)` on strings: surrounding whitespace is
ignored, an optional sign precedes a non-empty digit string; any other string
raises (`none` here). -/
def pyInt (l : List Char) : Option Int :=
  let t := (l.dropWhile Char.isWhitespace).reverse.dropWhile Char.isWhitespace |>.reverse
  let core : List Char → Option Int := fun d =>
    if d.isEmpty || !(d.all Char.isDigit) then none else some (digitsToNat d : Int)
  match t with
  | '-' :: rest => (core rest).map (fun n => -n)
  | '+' :: rest => core rest
  | _ => core t

/-- Python `str.upper()` (ASCII inputs). -/
def upperChars (l : List Char) : List Char := l.map Char.toUpper

/-- Embedding of `parse_capacity` (convert_to_json.py lines 26-40): absent or
falsy input yields `0`; otherwise the string is upper-cased and, when it
contains `TB` / `GB` / `PB`, the suffix is removed and the remainder passed
to `float` — which raises (`Except.error`) on a non-numeric remainder; a
string with no recognized unit yields `0`. -/
def parse_capacity (cap : Option String) : Except Unit Rat :=
  match cap with
  | none => .ok 0
  | some s =>
    if s = "" then .ok 0
    else
      let u := upperChars s.toList
      if contains2 'T' 'B' u then
        match pyFloat (replace2 'T' 'B' u) with
        | some q => .ok q
        | none => .error ()
      else if contains2 'G' 'B' u then
        match pyFloat (replace2 'G' 'B' u) with
        | some q => .ok (q / 1000)
        | none => .error ()
      else if contains2 'P' 'B' u then
        match pyFloat (replace2 'P' 'B' u) with
        | some q => .ok (q * 1000)
        | none => .error ()
      else .ok 0

/-- Embedding of `parse_power` (convert_to_json.py lines 42-58): a string of
the form `active/idle` with both halves numeric yields the pair; anything
else (absent, falsy, no slash, wrong part count, non-numeric halves — the
bare `except` catches those) yields `(0, 0)`. -/
def parse_power (p : Option String) : Rat × Rat :=
  match p with
  | none => (0, 0)
  | some s =>
    if s = "" then (0, 0)
    else
      let l := s.toList
      if l.contains '/' then
        match l.splitOn '/' with
        | [a, b] =>
          match pyFloat a, pyFloat b with
          | some x, some y => (x, y)
          | _, _ => (0, 0)
        | _ => (0, 0)
      else (0, 0)

/-! Chassis processing (`process_chassis_data`, convert_to_json.py 126-166). -/

/-- Input row of the chassis CSV: each attribute may be present under its
human-readable header or only under the positional fallback `Column_N`. -/
structure ChassisRow where
  Preferred : Option String := none
  Column_0 : Option String := none
  Vendor : Option String := none
  Column_1 : Option String := none
  Model : Option String := none
  Column_2 : Option String := none
  CPU_Sockets : Option String := none
  Column_4 : Option String := none
  Form_Factor : Option String := none
  Column_5 : Option String := none
  Drive_Bay : Option Int := none
  Column_6 : Option Int := none
  Drive_Type : Option String := none
  Column_7 : Option String := none
  Memory_Slots : Option String := none
  Column_9 : Option String := none
  Memory_Max : Option String := none
  Column_10 : Option String := none
  PSU : Option String := none
  Column_12 : Option String := none
  Depth : Option String := none
  Column_13 : Option String := none
  Vendor_Link : Option String := none
  Column_14 : Option String := none
  Notes : Option String := none
  Column_15 : Option String := none
deriving Repr, DecidableEq

/-- Normalized chassis record as placed in the vendor→model map. -/
structure ChassisOut where
  model : Option String
  form_factor : Option String
  drive_bays : Option Int
  drive_types : Option String
  cpu_sockets : Option String
  memory_slots : Option String
  memory_max : Option String
  size_category : String
  psu : Option String
  depth : Option String
  vendor_link : Option String
  notes : Option String
  preferred : Option String
deriving Repr, DecidableEq

/-- Size-category derivation (convert_to_json.py 144-148). Python evaluates
`form_factor == an exact string` and guards the bay comparison with the
truthiness of `drive_bays`, so a missing or zero bay count never takes the
small branch and never triggers the ≥ 24 half of the large branch. -/
def size_category (form_factor : Option String) (drive_bays : Option Int) : String :=
  if form_factor = some "1U" ∧ truthyZ drive_bays ∧ drive_bays.getD 0 ≤ 8 then "small"
  else if form_factor = some "2U" ∨ (truthyZ drive_bays ∧ drive_bays.getD 0 ≥ 24) then "large"
  else "medium"

/-- Normalized chassis record built from one row (convert_to_json.py 150-164). -/
def mkChassisOut (r : ChassisRow) : ChassisOut :=
  let ff := pyOrS r.Form_Factor r.Column_5
  let bays := pyOrZ r.Drive_Bay r.Column_6
  { model := pyOrS r.Model r.Column_2
    form_factor := ff
    drive_bays := bays
    drive_types := pyOrS r.Drive_Type r.Column_7
    cpu_sockets := pyOrS r.CPU_Sockets r.Column_4
    memory_slots := pyOrS r.Memory_Slots r.Column_9
    memory_max := pyOrS r.Memory_Max r.Column_10
    size_category := size_category ff bays
    psu := pyOrS r.PSU r.Column_12
    depth := pyOrS r.Depth r.Column_13
    vendor_link := pyOrS r.Vendor_Link r.Column_14
    notes := pyOrS r.Notes r.Column_15
    preferred := pyOrS r.Preferred r.Column_0 }

/-- Python dict assignment `d[k] = v` on an insertion-ordered association
list: an existing key keeps its position and gets the new value, a new key
is appended at the end. -/
def setkv {V : Type} (k : String) (v : V) : List (String × V) → List (String × V)
  | [] => [(k, v)]
  | (k2, v2) :: rest => if k2 = k then (k, v) :: rest else (k2, v2) :: setkv k v rest

/-- Python dict lookup `d.get(k)` on an association list. -/
def getkv {V : Type} (k : String) : List (String × V) → Option V
  | [] => none
  | (k2, v2) :: rest => if k2 = k then some v2 else getkv k rest

/-- In-place update of the value bound to an existing key. -/
def updatekv {V : Type} (k : String) (f : V → V) : List (String × V) → List (String × V)
  | [] => []
  | (k2, v2) :: rest => if k2 = k then (k2, f v2) :: rest else (k2, v2) :: updatekv k f rest

/-- One iteration of the chassis loop (convert_to_json.py 130-164): rows with
a falsy vendor or model are skipped; otherwise the vendor submap is created
when absent and `processed[vendor][model]` is assigned, overwriting any
earlier record with the same vendor and model. -/
def chassisStep (acc : List (String × List (String × ChassisOut))) (r : ChassisRow) :
    List (String × List (String × ChassisOut)) :=
  if truthyS (pyOrS r.Vendor r.Column_1) && truthyS (pyOrS r.Model r.Column_2) then
    updatekv ((pyOrS r.Vendor r.Column_1).getD "")
      (setkv ((pyOrS r.Model r.Column_2).getD "") (mkChassisOut r))
      (if (getkv ((pyOrS r.Vendor r.Column_1).getD "") acc).isSome then acc
       else setkv ((pyOrS r.Vendor r.Column_1).getD "") [] acc)
  else acc

/-- Embedding of `process_chassis_data` (convert_to_json.py 126-166): a fold
of `chassisStep` over the rows, producing the nested vendor→model map. -/
def process_chassis_data (rows : List ChassisRow) :
    List (String × List (String × ChassisOut)) :=
  rows.foldl chassisStep []

/-! Storage-drive processing (`process_storage_data`, convert_to_json.py
168-203). -/

/-- Input row of the storage-drive CSV. -/
structure StorageRow where
  Vendor : Option String := none
  Model : Option String := none
  Mfg_Part : Option String := none
  NVMe_Gen : Option String := none
  Form_Factor : Option String := none
  Interface : Option String := none
  Technology : Option String := none
  Capacity : Option String := none
  Seq_Read : Option Rat := none
  Seq_Write : Option Rat := none
  Random_Read : Option Rat := none
  Random_Write : Option Rat := none
  Power : Option String := none
  Tech_Spec : Option String := none
  Preferred : Option Int := none
deriving Repr, DecidableEq

/-- Normalized storage-drive record. -/
structure StorageDrive where
  vendor : Option String
  model : Option String
  part_number : Option String
  nvme_gen : Option String
  form_factor : Option String
  interface : Option String
  technology : Option String
  capacity_tb : Rat
  capacity_raw : Option String
  seq_read_mbps : Option Rat
  seq_write_mbps : Option Rat
  random_read_iops : Option Rat
  random_write_iops : Option Rat
  power_active_w : Rat
  power_idle_w : Rat
  power_raw : Option String
  tech_spec_url : Option String
  preferred : Int
deriving Repr, DecidableEq

/-- Record built for one accepted storage row (convert_to_json.py 182-201). -/
def mkStorageDrive (r : StorageRow) (cap : Rat) : StorageDrive :=
  let power := parse_power r.Power
  { vendor := r.Vendor
    model := r.Model
    part_number := r.Mfg_Part
    nvme_gen := r.NVMe_Gen
    form_factor := r.Form_Factor
    interface := r.Interface
    technology := r.Technology
    capacity_tb := cap
    capacity_raw := r.Capacity
    seq_read_mbps := r.Seq_Read
    seq_write_mbps := r.Seq_Write
    random_read_iops := r.Random_Read
    random_write_iops := r.Random_Write
    power_active_w := power.1
    power_idle_w := power.2
    power_raw := r.Power
    tech_spec_url := r.Tech_Spec
    preferred := pyOrZero r.Preferred }

/-- Loop body of `process_storage_data` before sorting: rows with falsy
vendor or model are skipped; for the rest `parse_capacity` runs (and its
exception aborts the whole list). -/
def processStorageAux : List StorageRow → Except Unit (List StorageDrive)
  | [] => .ok []
  | r :: rest =>
    if truthyS r.Vendor && truthyS r.Model then
      match parse_capacity r.Capacity with
      | .error e => .error e
      | .ok cap =>
        match processStorageAux rest with
        | .error e => .error e
        | .ok tail => .ok (mkStorageDrive r cap :: tail)
    else processStorageAux rest

/-- Sort-key transform `x or 99` applied to the already-defaulted preference
rank: rank 0 (unset) is falsy in Python and becomes 99. -/
def prefKey (p : Int) : Int := if p = 0 then 99 else p

/-- Boolean lexicographic comparison used to model
`sorted(key=(preferred or 99, capacity_tb))`. -/
def storageLeB (a b : StorageDrive) : Bool :=
  decide (prefKey a.preferred < prefKey b.preferred) ||
    (decide (prefKey a.preferred = prefKey b.preferred) && decide (a.capacity_tb ≤ b.capacity_tb))

/-- Embedding of `process_storage_data` (convert_to_json.py 168-203). -/
def process_storage_data (rows : List StorageRow) : Except Unit (List StorageDrive) :=
  (processStorageAux rows).map (fun l => l.mergeSort storageLeB)

/-! CPU processing (`process_cpu_data`, convert_to_json.py 205-240). -/

/-- Input row of the CPU CSV. -/
structure CpuRow where
  Vendor : Option String := none
  Model : Option String := none
  Line : Option String := none
  Cores : Option Int := none
  Threads : Option String := none
  Boost_Clock : Option String := none
  Base_Clock : Option String := none
  L3_Cache : Option String := none
  TDP : Option String := none
  Memory : Option String := none
  DDR_Channels : Option String := none
  Max_DDR_Freq : Option String := none
  Memory_Bandwidth : Option String := none
  PCIe_Lanes : Option String := none
  Socket_Support : Option String := none
  Gen : Option String := none
  Year : Option String := none
  Codename : Option String := none
  Architecture : Option String := none
  Socket : Option String := none
  Preferred : Option Int := none
deriving Repr, DecidableEq

/-- Normalized CPU record. -/
structure Cpu where
  vendor : Option String
  model : Option String
  line : Option String
  cores : Option Int
  threads : Option String
  boost_clock : Option String
  base_clock : Option String
  l3_cache : Option String
  tdp : Option String
  memory_type : Option String
  memory_channels : Option String
  max_memory_freq : Option String
  memory_bandwidth : Option String
  pcie_lanes : Option String
  socket_support : Option String
  generation : Option String
  year : Option String
  codename : Option String
  architecture : Option String
  socket : Option String
  preferred : Int
deriving Repr, DecidableEq

/-- Record built for one accepted CPU row (convert_to_json.py 216-238). -/
def mkCpu (r : CpuRow) : Cpu :=
  { vendor := r.Vendor
    model := r.Model
    line := r.Line
    cores := r.Cores
    threads := r.Threads
    boost_clock := r.Boost_Clock
    base_clock := r.Base_Clock
    l3_cache := r.L3_Cache
    tdp := r.TDP
    memory_type := r.Memory
    memory_channels := r.DDR_Channels
    max_memory_freq := r.Max_DDR_Freq
    memory_bandwidth := r.Memory_Bandwidth
    pcie_lanes := r.PCIe_Lanes
    socket_support := r.Socket_Support
    generation := r.Gen
    year := r.Year
    codename := r.Codename
    architecture := r.Architecture
    socket := r.Socket
    preferred := pyOrZero r.Preferred }

/-- Boolean lexicographic comparison modelling
`sorted(key=(preferred or 99, -(cores or 0)))`. -/
def cpuLeB (a b : Cpu) : Bool :=
  decide (prefKey a.preferred < prefKey b.preferred) ||
    (decide (prefKey a.preferred = prefKey b.preferred) &&
      decide (-(a.cores.getD 0) ≤ -(b.cores.getD 0)))

/-- Embedding of `process_cpu_data` (convert_to_json.py 205-240). -/
def process_cpu_data (rows : List CpuRow) : List Cpu :=
  ((rows.filter (fun r => truthyS r.Vendor && truthyS r.Model)).map mkCpu).mergeSort cpuLeB

/-! Memory processing (`process_memory_data`, convert_to_json.py 242-273). -/

/-- Input row of the memory CSV. -/
structure MemoryRow where
  Vendor : Option String := none
  Model : Option String := none
  Description : Option String := none
  Size : Option String := none
  Speed : Option String := none
  Profile : Option String := none
  Preferred : Option Int := none
deriving Repr, DecidableEq

/-- Normalized memory record. -/
structure MemoryModule where
  vendor : Option String
  model : Option String
  description : Option String
  size_gb : Int
  size_raw : Option String
  speed : Option String
  profile : Option String
  preferred : Int
deriving Repr, DecidableEq

/-- Size parsing of convert_to_json.py 253-260: a truthy string containing
`GB` (case-sensitive, no upper-casing here) has the suffix removed and the
rest passed to `int`; the bare except leaves `size_gb` at 0 on failure. -/
def parse_size_gb (size : Option String) : Int :=
  match size with
  | none => 0
  | some s =>
    if s = "" then 0
    else if contains2 'G' 'B' s.toList then
      match pyInt (replace2 'G' 'B' s.toList) with
      | some n => n
      | none => 0
    else 0

/-- Record built for one accepted memory row (convert_to_json.py 262-271). -/
def mkMemory (r : MemoryRow) : MemoryModule :=
  { vendor := r.Vendor
    model := r.Model
    description := r.Description
    size_gb := parse_size_gb r.Size
    size_raw := r.Size
    speed := r.Speed
    profile := r.Profile
    preferred := pyOrZero r.Preferred }

/-- Boolean lexicographic comparison modelling
`sorted(key=(preferred or 99, size_gb))`. -/
def memLeB (a b : MemoryModule) : Bool :=
  decide (prefKey a.preferred < prefKey b.preferred) ||
    (decide (prefKey a.preferred = prefKey b.preferred) && decide (a.size_gb ≤ b.size_gb))

/-- Embedding of `process_memory_data` (convert_to_json.py 242-273). -/
def process_memory_data (rows : List MemoryRow) : List MemoryModule :=
  ((rows.filter (fun r => truthyS r.Vendor && truthyS r.Model)).map mkMemory).mergeSort memLeB

/-! Static erasure-coding catalog (`create_hardware_json`,
convert_to_json.py 288-316). -/

/-- One erasure-coding scheme entry of the consolidated document. The
`efficiency` field is optional on the validator side (`get` with default);
the extractor always emits it. -/
structure ECScheme where
  data_blocks : Nat
  parity_blocks : Nat
  total_blocks : Nat
  efficiency : Option Rat
  min_drives : Nat
  fault_tolerance : Nat
deriving Repr, DecidableEq

/-- Scheme catalog emitted under `erasure_coding.schemes` by
`create_hardware_json` (convert_to_json.py 290-315). -/
def ec_schemes : List (String × ECScheme) :=
  [("EC 8:3",
    { data_blocks := 8, parity_blocks := 3, total_blocks := 11,
      efficiency := some (8 / 11), min_drives := 11, fault_tolerance := 3 }),
   ("EC 8:2",
    { data_blocks := 8, parity_blocks := 2, total_blocks := 10,
      efficiency := some (8 / 10), min_drives := 10, fault_tolerance := 2 }),
   ("EC 8:4",
    { data_blocks := 8, parity_blocks := 4, total_blocks := 12,
      efficiency := some (8 / 12), min_drives := 12, fault_tolerance := 4 })]

/-! Validator embedding (`validate_data.py`). The consolidated document is
seen by the validator as loosely-typed JSON; each checked field is an
`Option`, with `none` standing for key-absent-or-null. -/

/-- Presence flags for the metadata sub-keys checked at validate_data.py
22-26. -/
structure MetaBlock where
  version_present : Bool := true
  generated_present : Bool := true
  description_present : Bool := true
deriving Repr, DecidableEq

/-- Vendor entry as inspected by `validate_vendors`: the chassis map (absent
key modelled as `none`, only its cardinality is used) and the presence of
`supported_sizes`. -/
structure VVendor where
  chassis : Option (List Unit) := some [()]
  supported_sizes_present : Bool := true
deriving Repr, DecidableEq

/-- Storage-drive record as inspected by `validate_storage_drives`. -/
structure VDrive where
  vendor : Option String := none
  model : Option String := none
  capacity_tb : Option Rat := none
  seq_read_mbps : Option Rat := none
  power_active_w : Option Rat := none
  preferred : Option Int := none
deriving Repr, DecidableEq

/-- CPU record as inspected by `validate_cpus`. -/
structure VCpu where
  vendor : Option String := none
  model : Option String := none
  cores : Option Int := none
  preferred : Option Int := none
deriving Repr, DecidableEq

/-- The consolidated document as the validator sees it; `none` on a
top-level field is a missing key. For `erasure_coding` the inner `Option`
is `none` when the value is an empty dict or lacks the `schemes` key. -/
structure VDoc where
  metadata : Option MetaBlock := some {}
  vendors : Option (List (String × VVendor)) := some []
  storage_drives : Option (List VDrive) := some []
  cpus : Option (List VCpu) := some []
  memory : Option (List Unit) := some []
  erasure_coding : Option (Option (List (String × ECScheme))) := some (some ec_schemes)
deriving Repr, DecidableEq

/-- Embedding of `validate_json_structure` (validate_data.py 12-28). -/
def validate_json_structure (d : VDoc) : List String × List String :=
  let errs :=
    (if d.metadata.isNone then ["Missing required key: metadata"] else []) ++
    (if d.vendors.isNone then ["Missing required key: vendors"] else []) ++
    (if d.storage_drives.isNone then ["Missing required key: storage_drives"] else []) ++
    (if d.cpus.isNone then ["Missing required key: cpus"] else []) ++
    (if d.memory.isNone then ["Missing required key: memory"] else []) ++
    (if d.erasure_coding.isNone then ["Missing required key: erasure_coding"] else [])
  let warns :=
    match d.metadata with
    | none => []
    | some m =>
      (if m.version_present then [] else ["Missing metadata key: version"]) ++
      (if m.generated_present then [] else ["Missing metadata key: generated"]) ++
      (if m.description_present then [] else ["Missing metadata key: description"])
  (errs, warns)

/-- Findings for a single vendor entry (validate_data.py 39-51); a missing
chassis key yields an error and skips the remaining checks (continue). -/
def vendorFindings (p : String × VVendor) : List String × List String :=
  match p.2.chassis with
  | none => (["Vendor " ++ p.1 ++ " missing chassis data"], [])
  | some chassis =>
    ([],
     (if p.2.supported_sizes_present then []
      else ["Vendor " ++ p.1 ++ " missing supported_sizes"]) ++
     (if chassis.length = 0 then ["Vendor " ++ p.1 ++ " has no chassis models"] else []))

/-- Embedding of `validate_vendors` (validate_data.py 30-53). -/
def validate_vendors (vs : List (String × VVendor)) : List String × List String :=
  if vs.isEmpty then (["No vendor data found"], [])
  else (vs.flatMap (fun p => (vendorFindings p).1), vs.flatMap (fun p => (vendorFindings p).2))

/-- Missing required fields of one storage-drive record, in the order of the
`required_fields` list at validate_data.py 64. -/
def driveMissingFields (d : VDrive) : List String :=
  (if d.vendor.isNone then ["vendor"] else []) ++
  (if d.model.isNone then ["model"] else []) ++
  (if d.capacity_tb.isNone then ["capacity_tb"] else []) ++
  (if d.seq_read_mbps.isNone then ["seq_read_mbps"] else []) ++
  (if d.power_active_w.isNone then ["power_active_w"] else [])

/-- Records counted as preferred by the validator: preference rank (absent
defaulted to 0) at most 2 (validate_data.py 72-73 and 165). -/
def preferredDrivesV (ds : List VDrive) : List VDrive :=
  ds.filter (fun d => d.preferred.getD 0 ≤ 2)

/-- Embedding of `validate_storage_drives` (validate_data.py 55-85). The
message text drops the interpolated numeric values, keeping the
per-record-and-field identity of each finding. -/
def validate_storage_drives (ds : List VDrive) : List String × List String :=
  if ds.isEmpty then (["No storage drive data found"], [])
  else
    (ds.enum.flatMap (fun p =>
       (driveMissingFields p.2).map
         (fun f => "Drive " ++ toString p.1 ++ ": Missing required field " ++ f)),
     ds.flatMap (fun d =>
       (if d.capacity_tb.getD 0 > 100 then
          ["Drive " ++ d.model.getD "unknown" ++ ": Unusually high capacity"] else []) ++
       (if d.seq_read_mbps.getD 0 > 10000 then
          ["Drive " ++ d.model.getD "unknown" ++ ": Unusually high read speed"] else [])))

/-- Missing required fields of one CPU record (validate_data.py 96). -/
def cpuMissingFields (c : VCpu) : List String :=
  (if c.vendor.isNone then ["vendor"] else []) ++
  (if c.model.isNone then ["model"] else []) ++
  (if c.cores.isNone then ["cores"] else [])

/-- CPU records counted as preferred by the validator (validate_data.py
104-105 and 169). -/
def preferredCpusV (cs : List VCpu) : List VCpu :=
  cs.filter (fun c => c.preferred.getD 0 ≤ 2)

/-- Embedding of `validate_cpus` (validate_data.py 87-114). The core-count
warning is guarded by Python truthiness of `cores`. -/
def validate_cpus (cs : List VCpu) : List String × List String :=
  if cs.isEmpty then (["No CPU data found"], [])
  else
    (cs.enum.flatMap (fun p =>
       (cpuMissingFields p.2).map
         (fun f => "CPU " ++ toString p.1 ++ ": Missing required field " ++ f)),
     cs.flatMap (fun c =>
       if c.cores.getD 0 ≠ 0 ∧ c.cores.getD 0 > 128 then
         ["CPU " ++ c.model.getD "unknown" ++ ": Unusually high core count"] else []))

/-- The three schemes the validator recomputes (validate_data.py 126). -/
def requiredSchemes : List String := ["EC 8:3", "EC 8:2", "EC 8:4"]

/-- Findings for one required scheme name (validate_data.py 128-138): a
missing scheme is a warning; a present scheme is an error exactly when the
stored efficiency differs from `data / (data + parity)` by more than 0.001. -/
def ecSchemeFinding (schemes : List (String × ECScheme)) (name : String) :
    List String × List String :=
  match getkv name schemes with
  | none => ([], ["Missing recommended scheme: " ++ name])
  | some s =>
    let expected : Rat := (s.data_blocks : Rat) / ((s.data_blocks : Rat) + (s.parity_blocks : Rat))
    let actual : Rat := s.efficiency.getD 0
    if |expected - actual| > 1 / 1000 then (["Scheme " ++ name ++ ": Efficiency mismatch"], [])
    else ([], [])

/-- Embedding of `validate_erasure_coding` (validate_data.py 116-142);
`none` models a falsy dict or one without a `schemes` key. -/
def validate_erasure_coding (ec : Option (List (String × ECScheme))) :
    List String × List String :=
  match ec with
  | none => (["No erasure coding schemes found"], [])
  | some schemes =>
    (requiredSchemes.flatMap (fun n => (ecSchemeFinding schemes n).1),
     requiredSchemes.flatMap (fun n => (ecSchemeFinding schemes n).2))

/-- Embedding of `validate_consistency` (validate_data.py 144-173): warnings
only, the returned error list is always empty. -/
def validate_consistency (d : VDoc) : List String × List String :=
  let all_vendors := (d.vendors.getD []).map Prod.fst
  let drive_vendors := (d.storage_drives.getD []).filterMap (fun dr =>
    match dr.vendor with
    | some v => if v ≠ "" then some v else none
    | none => none)
  let missing := drive_vendors.filter (fun v => ¬ v ∈ all_vendors)
  let w1 := if missing.isEmpty then [] else ["Drive vendors not in chassis vendors"]
  let pd := (preferredDrivesV (d.storage_drives.getD [])).length
  let w2 := if pd < 3 then
    ["Only " ++ toString pd ++ " preferred drives available (recommend at least 3)"] else []
  let pc := (preferredCpusV (d.cpus.getD [])).length
  let w3 := if pc < 2 then
    ["Only " ++ toString pc ++ " preferred CPUs available (recommend at least 2)"] else []
  ([], w1 ++ w2 ++ w3)

/-- Embedding of `check_file_sizes` (validate_data.py 175-191): it consumes
only the byte size of the artifact (`none` = file absent), never its
content. -/
def check_file_sizes (fsize : Option Nat) : List String :=
  match fsize with
  | none => ["JSON file not found in public/data/"]
  | some bytes =>
    let size_mb : Rat := (bytes : Rat) / (1024 * 1024)
    if size_mb > 5 then ["JSON file is large - may impact loading performance"]
    else if size_mb < 1 / 10 then ["JSON file is small - may have incomplete data"]
    else []

/-- Outcome of loading the consolidated document at the start of `main`
(validate_data.py 197-212): file absent at both paths, file present but not
valid JSON, or a parsed document. -/
inductive LoadResult where
  | notFound
  | parseFailure
  | ok (d : VDoc)
deriving DecidableEq

/-- Observable outcome of one validator run: the accumulated error and
warning lists, whether control reached `check_file_sizes`, and the process
exit code from `exit(0 if success else 1)`. -/
structure RunOutcome where
  errors : List String
  warnings : List String
  sizeCheckRan : Bool
  exitCode : Nat
deriving Repr, DecidableEq

/-- Embedding of `main` plus the `exit` call (validate_data.py 193-281).
A missing or unparsable document returns from `main` before any check runs
(lines 202-212), giving `None`, which the `exit(0 if success else 1)` at
line 281 turns into exit code 1. -/
def vmain (load : LoadResult) (fsize : Option Nat) : RunOutcome :=
  match load with
  | .notFound => { errors := [], warnings := [], sizeCheckRan := false, exitCode := 1 }
  | .parseFailure => { errors := [], warnings := [], sizeCheckRan := false, exitCode := 1 }
  | .ok d =>
    let s := validate_json_structure d
    let v := validate_vendors (d.vendors.getD [])
    let sd := validate_storage_drives (d.storage_drives.getD [])
    let c := validate_cpus (d.cpus.getD [])
    let ec := validate_erasure_coding (d.erasure_coding.getD none)
    let cons := validate_consistency d
    let fw := check_file_sizes fsize
    let errors := s.1 ++ v.1 ++ sd.1 ++ c.1 ++ ec.1 ++ cons.1
    let warnings := s.2 ++ v.2 ++ sd.2 ++ c.2 ++ ec.2 ++ cons.2 ++ fw
    { errors := errors, warnings := warnings, sizeCheckRan := true,
      exitCode := if errors.isEmpty then 0 else 1 }

/-! Derived notions used to state the verified properties. -/

/-- Lexicographic order on the Python sort key
`(preferred or 99, capacity_tb)` of two normalized storage drives. -/
def storageKeyLe (a b : StorageDrive) : Prop :=
  prefKey a.preferred < prefKey b.preferred ∨
    (prefKey a.preferred = prefKey b.preferred ∧ a.capacity_tb ≤ b.capacity_tb)

/-- Lexicographic order on the Python sort key
`(preferred or 99, -(cores or 0))` of two normalized CPU records. -/
def cpuKeyLe (a b : Cpu) : Prop :=
  prefKey a.preferred < prefKey b.preferred ∨
    (prefKey a.preferred = prefKey b.preferred ∧ -(a.cores.getD 0) ≤ -(b.cores.getD 0))

/-- Keys of an insertion-ordered association list are pairwise distinct. -/
def NodupKeys {V : Type} (l : List (String × V)) : Prop :=
  (l.map Prod.fst).Nodup

/-- Chassis row with form factor 1U and a drive-bay count of 0. -/
def chassisRowZeroBays : ChassisRow :=
  { Vendor := some "S", Model := some "M", Form_Factor := some "1U", Drive_Bay := some 0 }

/-- First of two chassis rows sharing vendor V and model M. -/
def chassisRowFirst : ChassisRow :=
  { Vendor := some "V", Model := some "M", Form_Factor := some "1U",
    Drive_Bay := some 12, Notes := some "first" }

/-- Second of two chassis rows sharing vendor V and model M. -/
def chassisRowSecond : ChassisRow :=
  { Vendor := some "V", Model := some "M", Form_Factor := some "2U",
    Drive_Bay := some 24, Notes := some "second" }

/-- Normalized drive built from a row with no Preferred value (rank 0). -/
def driveRank0 : StorageDrive :=
  mkStorageDrive { Vendor := some "V", Model := some "A" } 1

/-- Normalized drive built from a row with preference rank 1. -/
def driveRank1 : StorageDrive :=
  mkStorageDrive { Vendor := some "V", Model := some "B", Preferred := some 1 } 2

/-- Validator-side drive record with explicit preference rank 0. -/
def vdriveRank0 : VDrive := { preferred := some 0 }

/-- Storage row lacking a vendor (dropped during normalization). -/
def storageRowNoVendor : StorageRow := { Model := some "M" }

/-- CPU row lacking vendor and model (dropped during normalization). -/
def cpuRowEmpty : CpuRow := {}

/-- Memory row lacking vendor and model (dropped during normalization). -/
def memoryRowEmpty : MemoryRow := {}

/-- Document whose three data categories are present but empty. -/
def emptyCategoriesDoc : VDoc :=
  { vendors := some [], storage_drives := some [], cpus := some [] }

/-! Helper lemmas. -/

theorem truthyS_ne_none {x : Option String} (h : truthyS x = true) : x ≠ none := by
  cases x with
  | none => simp [truthyS] at h
  | some s => simp

/-- C1: parse_capacity is claimed total — TB/GB/PB suffix rules, everything
else yielding 0 without aborting. The suffix and default branches behave as
claimed, but a string that contains a unit suffix with a non-numeric
remainder reaches the bare `float` call and raises (first conjunct):
`parse_capacity` is not total over the claimed domain. -/
theorem parse_capacity_behavior :
    parse_capacity (some "xTB") = .error () ∧
    parse_capacity (some "15.36TB") = .ok (1536 / 100) ∧
    parse_capacity (some "500GB") = .ok (1 / 2) ∧
    parse_capacity (some "2PB") = .ok 2000 ∧
    parse_capacity none = .ok 0 ∧
    parse_capacity (some "unknown") = .ok 0 := by
  refine ⟨?_, ?_, ?_, ?_, ?_, ?_⟩ <;>
    simp [parse_capacity, upperChars, contains2, replace2, pyFloat, parseUnsignedFloat,
      digitsToNat] <;> norm_num

/-- C2 counterexample: a 1U chassis whose drive-bay count is 0 is categorized
"medium", not "small" — Python `drive_bays and drive_bays <= 8` is falsy at
0, so the small branch is skipped, refuting the claim that any bay count ≤ 8
(including 0) gives "small". -/
theorem size_category_zero_bays_counterexample :
    size_category (some "1U") (some 0) = "medium" ∧
    size_category (some "1U") (some 0) ≠ "small" ∧
    (process_chassis_data [chassisRowZeroBays]).map
      (fun p => (p.1, p.2.map (fun q => (q.1, q.2.size_category)))) =
      [("S", [("M", "medium")])] := by
  refine ⟨by decide, by decide, by decide⟩

/-- C2 (amended): the three-way priority rule holds with the bay-count
conditions guarded by Python truthiness: 1U with a present non-zero bay
count ≤ 8 is small; otherwise 2U or a present non-zero bay count ≥ 24 is
large; otherwise medium. 30 bays is large regardless of form factor, and a
zero/missing bay count on a non-2U chassis is medium (not small). -/
theorem size_category_priority_rule (ff : Option String) (bays : Option Int) :
    (ff = some "1U" → truthyZ bays = true → bays.getD 0 ≤ 8 →
      size_category ff bays = "small") ∧
    (¬(ff = some "1U" ∧ truthyZ bays = true ∧ bays.getD 0 ≤ 8) →
      (ff = some "2U" ∨ (truthyZ bays = true ∧ 24 ≤ bays.getD 0)) →
      size_category ff bays = "large") ∧
    (¬(ff = some "1U" ∧ truthyZ bays = true ∧ bays.getD 0 ≤ 8) →
      ¬(ff = some "2U" ∨ (truthyZ bays = true ∧ 24 ≤ bays.getD 0)) →
      size_category ff bays = "medium") ∧
    size_category ff (some 30) = "large" ∧
    (truthyZ bays = false → ff ≠ some "2U" → size_category ff bays = "medium") := by
  refine ⟨?_, ?_, ?_, ?_, ?_⟩
  · intro h1 h2 h3
    unfold size_category
    rw [if_pos ⟨h1, h2, h3⟩]
  · intro h1 h2
    unfold size_category
    rw [if_neg h1, if_pos h2]
  · intro h1 h2
    unfold size_category
    rw [if_neg h1, if_neg h2]
  · unfold size_category
    rw [if_neg (by rintro ⟨_, _, h⟩; simp at h), if_pos (Or.inr (by decide))]
  · intro h1 h2
    unfold size_category
    rw [if_neg (by rintro ⟨_, hb, _⟩; rw [h1] at hb; cases hb),
      if_neg (by rintro (hff | ⟨hb, _⟩); exact h2 hff; rw [h1] at hb; cases hb)]

/-- Witness for the amended size-category rule at concrete inputs. -/
theorem size_category_priority_rule_witness :
    size_category (some "1U") (some 8) = "small" ∧
    size_category (some "9U") (some 30) = "large" :=
  ⟨(size_category_priority_rule (some "1U") (some 8)).1 rfl (by decide) (by decide),
   (size_category_priority_rule (some "9U") (some 8)).2.2.2.1⟩

/-- C4 counterexample: on two storage rows — one with unset preference rank
(defaulted to 0) and capacity 1 TB, one with rank 1 and capacity 2 TB — the
normalized output lists the rank-1 drive first: the `or 99` in the sort key
sends rank 0 to 99, so an unset rank sorts after rank 1, refuting the claim
that rank 0 sorts before rank 1. -/
theorem rank0_after_rank1_counterexample :
    (process_storage_data
      [{ Vendor := some "V", Model := some "A", Capacity := some "1TB" },
       { Vendor := some "V", Model := some "B", Capacity := some "2TB",
         Preferred := some 1 }]).map
      (fun l => l.map (fun d => (d.model, d.preferred))) =
      .ok [(some "B", 1), (some "A", 0)] := by
  simp [process_storage_data, processStorageAux, parse_capacity, upperChars, contains2,
    replace2, pyFloat, parseUnsignedFloat, digitsToNat, truthyS, mkStorageDrive,
    parse_power, pyOrZero, List.mergeSort, storageLeB, prefKey, Except.map]

theorem storageLeB_iff (a b : StorageDrive) : storageLeB a b = true ↔ storageKeyLe a b := by
  simp [storageLeB, storageKeyLe]

theorem cpuLeB_iff (a b : Cpu) : cpuLeB a b = true ↔ cpuKeyLe a b := by
  simp [cpuLeB, cpuKeyLe]

theorem storageLeB_trans (a b c : StorageDrive) (h1 : storageLeB a b) (h2 : storageLeB b c) :
    storageLeB a c := by
  rw [storageLeB_iff] at h1 h2 ⊢
  rcases h1 with h | ⟨e1, l1⟩ <;> rcases h2 with h' | ⟨e2, l2⟩
  · exact Or.inl (lt_trans h h')
  · exact Or.inl (lt_of_lt_of_eq h e2)
  · exact Or.inl (lt_of_eq_of_lt e1 h')
  · exact Or.inr ⟨e1.trans e2, le_trans l1 l2⟩

theorem storageLeB_total (a b : StorageDrive) : storageLeB a b || storageLeB b a := by
  rw [Bool.or_eq_true, storageLeB_iff, storageLeB_iff]
  rcases lt_trichotomy (prefKey a.preferred) (prefKey b.preferred) with h | h | h
  · exact Or.inl (Or.inl h)
  · rcases le_total a.capacity_tb b.capacity_tb with hc | hc
    · exact Or.inl (Or.inr ⟨h, hc⟩)
    · exact Or.inr (Or.inr ⟨h.symm, hc⟩)
  · exact Or.inr (Or.inl h)

theorem cpuLeB_trans (a b c : Cpu) (h1 : cpuLeB a b) (h2 : cpuLeB b c) : cpuLeB a c := by
  rw [cpuLeB_iff] at h1 h2 ⊢
  rcases h1 with h | ⟨e1, l1⟩ <;> rcases h2 with h' | ⟨e2, l2⟩
  · exact Or.inl (lt_trans h h')
  · exact Or.inl (lt_of_lt_of_eq h e2)
  · exact Or.inl (lt_of_eq_of_lt e1 h')
  · exact Or.inr ⟨e1.trans e2, le_trans l1 l2⟩

theorem cpuLeB_total (a b : Cpu) : cpuLeB a b || cpuLeB b a := by
  rw [Bool.or_eq_true, cpuLeB_iff, cpuLeB_iff]
  rcases lt_trichotomy (prefKey a.preferred) (prefKey b.preferred) with h | h | h
  · exact Or.inl (Or.inl h)
  · rcases le_total (-(a.cores.getD 0)) (-(b.cores.getD 0)) with hc | hc
    · exact Or.inl (Or.inr ⟨h, hc⟩)
    · exact Or.inr (Or.inr ⟨h.symm, hc⟩)
  · exact Or.inr (Or.inl h)

theorem process_storage_data_ok {srows : List StorageRow} {out : List StorageDrive}
    (h : process_storage_data srows = .ok out) :
    ∃ l, processStorageAux srows = .ok l ∧ out = l.mergeSort storageLeB := by
  unfold process_storage_data at h
  rcases haux : processStorageAux srows with e | l <;> rw [haux] at h
  · cases h
  · exact ⟨l, rfl, by simpa [Except.map] using h.symm⟩

theorem processStorageAux_ok {rows : List StorageRow} {l : List StorageDrive}
    (h : processStorageAux rows = .ok l) :
    l.length ≤ rows.length ∧ ∀ d ∈ l, truthyS d.vendor ∧ truthyS d.model := by
  induction rows generalizing l with
  | nil =>
    simp only [processStorageAux, Except.ok.injEq] at h
    subst h
    simp
  | cons r rest ih =>
    rw [processStorageAux] at h
    by_cases hc : (truthyS r.Vendor && truthyS r.Model) = true
    · rw [if_pos hc] at h
      rcases hcap : parse_capacity r.Capacity with e | cap <;> rw [hcap] at h
      · cases h
      · rcases haux : processStorageAux rest with e | tail <;> rw [haux] at h
        · cases h
        · injection h with h'
          subst h'
          obtain ⟨hlen, hmem⟩ := ih haux
          refine ⟨by simpa using Nat.succ_le_succ hlen, ?_⟩
          intro d hd
          rcases List.mem_cons.mp hd with rfl | hd2
          · obtain ⟨hv, hm⟩ := Bool.and_eq_true_iff.mp hc
            exact ⟨by simpa [mkStorageDrive] using hv, by simpa [mkStorageDrive] using hm⟩
          · exact hmem d hd2
    · rw [if_neg hc] at h
      obtain ⟨hlen, hmem⟩ := ih h
      exact ⟨Nat.le_succ_of_le hlen, hmem⟩

/-- C3: the storage-drive output (whenever the run completes) is
non-decreasing under the lexicographic key (rank with 0 mapped to 99,
capacity), and the CPU output is non-decreasing under (rank with 0 mapped
to 99, negated cores). -/
theorem processed_lists_sorted (srows : List StorageRow) (crows : List CpuRow)
    (out : List StorageDrive) (h : process_storage_data srows = .ok out) :
    out.Pairwise storageKeyLe ∧ (process_cpu_data crows).Pairwise cpuKeyLe := by
  constructor
  · obtain ⟨l, _, rfl⟩ := process_storage_data_ok h
    exact (List.sorted_mergeSort storageLeB_trans storageLeB_total l).imp
      (fun hab => (storageLeB_iff _ _).mp hab)
  · exact (List.sorted_mergeSort cpuLeB_trans cpuLeB_total _).imp
      (fun hab => (cpuLeB_iff _ _).mp hab)

/-- Witness for the sortedness theorem at concrete (empty) inputs. -/
theorem processed_lists_sorted_witness :
    ([] : List StorageDrive).Pairwise storageKeyLe ∧
    (process_cpu_data []).Pairwise cpuKeyLe :=
  processed_lists_sorted [] [] [] (by simp [process_storage_data, processStorageAux, Except.map])

/-- C4 (amended): the sort key maps rank 0 (unset) to 99, so a rank-0 drive
sorts after — not before — a rank-1 drive (`storageLeB a b = false` says a
rank-0 record never precedes a rank-1 record in the sorted output), while
the validator counts every record with rank ≤ 2, including rank 0/unset, as
preferred. -/
theorem rank0_least_preferred (a b : StorageDrive) (ds : List VDrive) (dr : VDrive) :
    (a.preferred = 0 → b.preferred = 1 →
      storageLeB a b = false ∧ storageLeB b a = true) ∧
    (dr ∈ ds → dr.preferred.getD 0 ≤ 2 → dr ∈ preferredDrivesV ds) := by
  constructor
  · intro h0 h1
    constructor
    · norm_num [storageLeB, prefKey, h0, h1]
    · norm_num [storageLeB, prefKey, h0, h1]
  · intro hmem hle
    simp only [preferredDrivesV, List.mem_filter, decide_eq_true_eq]
    exact ⟨hmem, hle⟩

/-- Witness for the rank-0 ordering theorem at concrete records. -/
theorem rank0_least_preferred_witness :
    (storageLeB driveRank0 driveRank1 = false ∧ storageLeB driveRank1 driveRank0 = true) ∧
    vdriveRank0 ∈ preferredDrivesV [vdriveRank0] :=
  ⟨(rank0_least_preferred driveRank0 driveRank1 [vdriveRank0] vdriveRank0).1 rfl rfl,
   (rank0_least_preferred driveRank0 driveRank1 [vdriveRank0] vdriveRank0).2
     (List.mem_singleton.mpr rfl) (by decide)⟩

/-- C7: records lacking a (truthy) vendor or model are excluded from the
storage, CPU and memory outputs: every emitted record has non-null vendor
and model, and each output is no longer than its input. -/
theorem vendor_model_required (srows : List StorageRow) (crows : List CpuRow)
    (mrows : List MemoryRow) (out : List StorageDrive)
    (h : process_storage_data srows = .ok out) :
    (out.length ≤ srows.length ∧ ∀ r ∈ out, r.vendor ≠ none ∧ r.model ≠ none) ∧
    ((process_cpu_data crows).length ≤ crows.length ∧
      ∀ r ∈ process_cpu_data crows, r.vendor ≠ none ∧ r.model ≠ none) ∧
    ((process_memory_data mrows).length ≤ mrows.length ∧
      ∀ r ∈ process_memory_data mrows, r.vendor ≠ none ∧ r.model ≠ none) := by
  refine ⟨?_, ?_, ?_⟩
  · obtain ⟨l, haux, rfl⟩ := process_storage_data_ok h
    obtain ⟨hlen, hmem⟩ := processStorageAux_ok haux
    refine ⟨by simpa using hlen, ?_⟩
    intro r hr
    obtain ⟨hv, hm⟩ := hmem r (List.mem_mergeSort.mp hr)
    exact ⟨truthyS_ne_none hv, truthyS_ne_none hm⟩
  · constructor
    · calc (process_cpu_data crows).length
          = ((crows.filter (fun r => truthyS r.Vendor && truthyS r.Model)).map mkCpu).length := by
            simp [process_cpu_data]
        _ ≤ crows.length := by simpa using List.length_filter_le _ crows
    · intro r hr
      rw [process_cpu_data, List.mem_mergeSort, List.mem_map] at hr
      obtain ⟨r0, hr0, rfl⟩ := hr
      obtain ⟨_, hb⟩ := List.mem_filter.mp hr0
      obtain ⟨hv, hm⟩ := Bool.and_eq_true_iff.mp hb
      exact ⟨truthyS_ne_none (by simpa [mkCpu] using hv),
        truthyS_ne_none (by simpa [mkCpu] using hm)⟩
  · constructor
    · calc (process_memory_data mrows).length
          = ((mrows.filter (fun r => truthyS r.Vendor && truthyS r.Model)).map mkMemory).length := by
            simp [process_memory_data]
        _ ≤ mrows.length := by simpa using List.length_filter_le _ mrows
    · intro r hr
      rw [process_memory_data, List.mem_mergeSort, List.mem_map] at hr
      obtain ⟨r0, hr0, rfl⟩ := hr
      obtain ⟨_, hb⟩ := List.mem_filter.mp hr0
      obtain ⟨hv, hm⟩ := Bool.and_eq_true_iff.mp hb
      exact ⟨truthyS_ne_none (by simpa [mkMemory] using hv),
        truthyS_ne_none (by simpa [mkMemory] using hm)⟩

/-- Witness for the vendor/model filtering theorem: one-row inputs each
lacking vendor (and model), all filtered out. -/
theorem vendor_model_required_witness :
    (([] : List StorageDrive).length ≤ [storageRowNoVendor].length ∧
      ∀ r ∈ ([] : List StorageDrive), r.vendor ≠ none ∧ r.model ≠ none) ∧
    ((process_cpu_data [cpuRowEmpty]).length ≤ [cpuRowEmpty].length ∧
      ∀ r ∈ process_cpu_data [cpuRowEmpty], r.vendor ≠ none ∧ r.model ≠ none) ∧
    ((process_memory_data [memoryRowEmpty]).length ≤ [memoryRowEmpty].length ∧
      ∀ r ∈ process_memory_data [memoryRowEmpty], r.vendor ≠ none ∧ r.model ≠ none) :=
  vendor_model_required [storageRowNoVendor] [cpuRowEmpty] [memoryRowEmpty] []
    (by simp [process_storage_data, processStorageAux, storageRowNoVendor, truthyS, Except.map])

theorem ecSchemeFinding_errors_sub {schemes : List (String × ECScheme)} {n x : String}
    (h : x ∈ (ecSchemeFinding schemes n).1) :
    x = "Scheme " ++ n ++ ": Efficiency mismatch" := by
  rcases hk : getkv n schemes with _ | s
  · simp [ecSchemeFinding, hk] at h
  · simp only [ecSchemeFinding, hk] at h
    split at h
    · simpa using h
    · simp at h

theorem ecSchemeFinding_mem_iff {schemes : List (String × ECScheme)} {n : String}
    {s : ECScheme} (hk : getkv n schemes = some s) :
    ("Scheme " ++ n ++ ": Efficiency mismatch") ∈ (ecSchemeFinding schemes n).1 ↔
      |((s.data_blocks : Rat) / ((s.data_blocks : Rat) + (s.parity_blocks : Rat))) -
        s.efficiency.getD 0| > 1 / 1000 := by
  simp only [ecSchemeFinding, hk]
  split
  · next hdev => exact iff_of_true (by simp) hdev
  · next hdev => exact iff_of_false (by simp) hdev

theorem validate_ec_mem_iff (schemes : List (String × ECScheme)) (x : String) :
    x ∈ (validate_erasure_coding (some schemes)).1 ↔
      x ∈ (ecSchemeFinding schemes "EC 8:3").1 ∨
      x ∈ (ecSchemeFinding schemes "EC 8:2").1 ∨
      x ∈ (ecSchemeFinding schemes "EC 8:4").1 := by
  simp [validate_erasure_coding, requiredSchemes]

/-- C5: every scheme of the emitted erasure-coding catalog stores an
efficiency equal (within 0.001 — here exactly, over the rationals) to
data_blocks / (data_blocks + parity_blocks), and for each of the three
required schemes present in a document the validator reports the mismatch
error exactly when the stored efficiency differs from the recomputed
quotient by more than 0.001. -/
theorem ec_efficiency_ok :
    (∀ p ∈ ec_schemes, ∃ e, p.2.efficiency = some e ∧
      |e - ((p.2.data_blocks : Rat) / ((p.2.data_blocks : Rat) + (p.2.parity_blocks : Rat)))| ≤
        1 / 1000) ∧
    (∀ (schemes : List (String × ECScheme)) (name : String) (s : ECScheme),
      name ∈ requiredSchemes → getkv name schemes = some s →
      (("Scheme " ++ name ++ ": Efficiency mismatch") ∈
          (validate_erasure_coding (some schemes)).1 ↔
        |((s.data_blocks : Rat) / ((s.data_blocks : Rat) + (s.parity_blocks : Rat))) -
          s.efficiency.getD 0| > 1 / 1000)) := by
  constructor
  · intro p hp
    simp only [ec_schemes, List.mem_cons, List.not_mem_nil, or_false] at hp
    rcases hp with rfl | rfl | rfl
    · exact ⟨8 / 11, rfl, by norm_num⟩
    · exact ⟨8 / 10, rfl, by norm_num⟩
    · exact ⟨8 / 12, rfl, by norm_num⟩
  · intro schemes name s hname hk
    simp only [requiredSchemes, List.mem_cons, List.not_mem_nil, or_false] at hname
    rcases hname with rfl | rfl | rfl
    · rw [validate_ec_mem_iff]
      constructor
      · rintro (h | h | h)
        · exact (ecSchemeFinding_mem_iff hk).mp h
        · exact absurd (ecSchemeFinding_errors_sub h) (by decide)
        · exact absurd (ecSchemeFinding_errors_sub h) (by decide)
      · intro hdev
        exact Or.inl ((ecSchemeFinding_mem_iff hk).mpr hdev)
    · rw [validate_ec_mem_iff]
      constructor
      · rintro (h | h | h)
        · exact absurd (ecSchemeFinding_errors_sub h) (by decide)
        · exact (ecSchemeFinding_mem_iff hk).mp h
        · exact absurd (ecSchemeFinding_errors_sub h) (by decide)
      · intro hdev
        exact Or.inr (Or.inl ((ecSchemeFinding_mem_iff hk).mpr hdev))
    · rw [validate_ec_mem_iff]
      constructor
      · rintro (h | h | h)
        · exact absurd (ecSchemeFinding_errors_sub h) (by decide)
        · exact absurd (ecSchemeFinding_errors_sub h) (by decide)
        · exact (ecSchemeFinding_mem_iff hk).mp h
      · intro hdev
        exact Or.inr (Or.inr ((ecSchemeFinding_mem_iff hk).mpr hdev))

/-- Witness for the erasure-coding theorem: the catalog of the extractor
passes the recomputation of the validator with no mismatch error. -/
theorem ec_efficiency_ok_witness :
    ¬ ("Scheme " ++ "EC 8:3" ++ ": Efficiency mismatch") ∈
        (validate_erasure_coding (some ec_schemes)).1 := by
  rw [ec_efficiency_ok.2 ec_schemes "EC 8:3"
    { data_blocks := 8, parity_blocks := 3, total_blocks := 11,
      efficiency := some (8 / 11), min_drives := 11, fault_tolerance := 3 }
    (by simp [requiredSchemes]) (by simp [ec_schemes, getkv])]
  norm_num

theorem vmain_ok_exitCode (d : VDoc) (fsize : Option Nat) :
    (vmain (.ok d) fsize).exitCode =
      if (vmain (.ok d) fsize).errors.isEmpty then 0 else 1 := rfl

theorem vmain_exit1_of_error {d : VDoc} {fsize : Option Nat} {x : String}
    (h : x ∈ (vmain (.ok d) fsize).errors) : (vmain (.ok d) fsize).exitCode = 1 := by
  rw [vmain_ok_exitCode]
  rcases he : (vmain (.ok d) fsize).errors with _ | ⟨y, ys⟩
  · rw [he] at h
    cases h
  · simp

/-- C6: for a loaded document the exit code is 0 exactly when no error was
accumulated and 1 exactly when at least one was, independently of the
warning count; a run aborted by a missing or unparsable document exits 1. -/
theorem validator_exit_code (d : VDoc) (fsize : Option Nat) :
    ((vmain (.ok d) fsize).exitCode = 0 ↔ (vmain (.ok d) fsize).errors = []) ∧
    ((vmain (.ok d) fsize).exitCode = 1 ↔ (vmain (.ok d) fsize).errors ≠ []) ∧
    (vmain .notFound fsize).exitCode = 1 ∧
    (vmain .parseFailure fsize).exitCode = 1 := by
  refine ⟨?_, ?_, rfl, rfl⟩
  · rw [vmain_ok_exitCode]
    rcases he : (vmain (.ok d) fsize).errors with _ | ⟨y, ys⟩ <;> simp
  · rw [vmain_ok_exitCode]
    rcases he : (vmain (.ok d) fsize).errors with _ | ⟨y, ys⟩ <;> simp

/-- C9: an empty (or absent) vendors map, storage-drive list or CPU list is
a hard error — the named message is recorded and the run exits 1 — even
when every required top-level key is present. -/
theorem empty_category_hard_error (d : VDoc) (fsize : Option Nat) :
    ((d.vendors = none ∨ d.vendors = some []) →
      "No vendor data found" ∈ (vmain (.ok d) fsize).errors ∧
        (vmain (.ok d) fsize).exitCode = 1) ∧
    ((d.storage_drives = none ∨ d.storage_drives = some []) →
      "No storage drive data found" ∈ (vmain (.ok d) fsize).errors ∧
        (vmain (.ok d) fsize).exitCode = 1) ∧
    ((d.cpus = none ∨ d.cpus = some []) →
      "No CPU data found" ∈ (vmain (.ok d) fsize).errors ∧
        (vmain (.ok d) fsize).exitCode = 1) := by
  refine ⟨?_, ?_, ?_⟩
  · intro hv
    have h0 : d.vendors.getD [] = [] := by rcases hv with h | h <;> simp [h]
    have hmem : "No vendor data found" ∈ (vmain (.ok d) fsize).errors := by
      simp [vmain, h0, validate_vendors, List.mem_append]
    exact ⟨hmem, vmain_exit1_of_error hmem⟩
  · intro hv
    have h0 : d.storage_drives.getD [] = [] := by rcases hv with h | h <;> simp [h]
    have hmem : "No storage drive data found" ∈ (vmain (.ok d) fsize).errors := by
      simp [vmain, h0, validate_storage_drives, List.mem_append]
    exact ⟨hmem, vmain_exit1_of_error hmem⟩
  · intro hv
    have h0 : d.cpus.getD [] = [] := by rcases hv with h | h <;> simp [h]
    have hmem : "No CPU data found" ∈ (vmain (.ok d) fsize).errors := by
      simp [vmain, h0, validate_cpus, List.mem_append]
    exact ⟨hmem, vmain_exit1_of_error hmem⟩

/-- Witness for the empty-category theorem on a document with all three
categories present but empty. -/
theorem empty_category_hard_error_witness :
    "No vendor data found" ∈ (vmain (.ok emptyCategoriesDoc) none).errors ∧
    "No storage drive data found" ∈ (vmain (.ok emptyCategoriesDoc) none).errors ∧
    "No CPU data found" ∈ (vmain (.ok emptyCategoriesDoc) none).errors ∧
    (vmain (.ok emptyCategoriesDoc) none).exitCode = 1 :=
  ⟨((empty_category_hard_error emptyCategoriesDoc none).1 (Or.inr rfl)).1,
   ((empty_category_hard_error emptyCategoriesDoc none).2.1 (Or.inr rfl)).1,
   ((empty_category_hard_error emptyCategoriesDoc none).2.2 (Or.inr rfl)).1,
   ((empty_category_hard_error emptyCategoriesDoc none).1 (Or.inr rfl)).2⟩

/-- C8 counterexample: with the document present but unparsable, `main`
returns at the JSON-load except-block, before `check_file_sizes` is ever
called: the run records no warnings and the size check does not run, even
though `check_file_sizes` alone would have produced a warning for this
1000-byte artifact. This refutes the claim that the size check runs even
when JSON parsing fails. -/
theorem size_check_not_run_on_parse_failure :
    (vmain .parseFailure (some 1000)).sizeCheckRan = false ∧
    (vmain .parseFailure (some 1000)).warnings = [] ∧
    check_file_sizes (some 1000) = ["JSON file is small - may have incomplete data"] := by
  refine ⟨rfl, rfl, ?_⟩
  norm_num [check_file_sizes]

/-- C8 (amended): check_file_sizes reads only the byte size of the artifact — a
missing file is a warning — and its findings join the warnings of the run; it is
independent of the content-based checks but runs only when the document was
successfully loaded and parsed: a missing or unparsable document aborts the
run before the size check. -/
theorem size_check_scope (d : VDoc) (fsize : Option Nat) :
    (vmain (.ok d) fsize).sizeCheckRan = true ∧
    (∀ w, w ∈ check_file_sizes fsize → w ∈ (vmain (.ok d) fsize).warnings) ∧
    check_file_sizes none = ["JSON file not found in public/data/"] ∧
    (vmain .parseFailure fsize).sizeCheckRan = false ∧
    (vmain .notFound fsize).sizeCheckRan = false := by
  refine ⟨rfl, ?_, rfl, rfl, rfl⟩
  intro w hw
  simp [vmain, List.mem_append]
  tauto

/-- Witness for the size-check scope theorem: the missing-file warning
reaches the warnings of a run on a loaded document. -/
theorem size_check_scope_witness :
    "JSON file not found in public/data/" ∈ (vmain (.ok {}) none).warnings :=
  (size_check_scope {} none).2.1 _ (by simp [check_file_sizes])

theorem getkv_setkv_self {V : Type} (k : String) (v : V) (l : List (String × V)) :
    getkv k (setkv k v l) = some v := by
  induction l with
  | nil => simp [setkv, getkv]
  | cons p rest ih =>
    obtain ⟨k2, v2⟩ := p
    by_cases h : k2 = k
    · simp [setkv, getkv, h]
    · simp [setkv, getkv, h, ih]

theorem getkv_updatekv_self {V : Type} (k : String) (f : V → V) (l : List (String × V)) :
    getkv k (updatekv k f l) = (getkv k l).map f := by
  induction l with
  | nil => simp [updatekv, getkv]
  | cons p rest ih =>
    obtain ⟨k2, v2⟩ := p
    by_cases h : k2 = k
    · simp [updatekv, getkv, h]
    · simp [updatekv, getkv, h, ih]

theorem map_fst_updatekv {V : Type} (k : String) (f : V → V) (l : List (String × V)) :
    (updatekv k f l).map Prod.fst = l.map Prod.fst := by
  induction l with
  | nil => simp [updatekv]
  | cons p rest ih =>
    obtain ⟨k2, v2⟩ := p
    by_cases h : k2 = k
    · simp [updatekv, h]
    · simp [updatekv, h, ih]

theorem mem_map_fst_setkv {V : Type} {x k : String} {v : V} {l : List (String × V)} :
    x ∈ (setkv k v l).map Prod.fst ↔ x ∈ l.map Prod.fst ∨ x = k := by
  induction l with
  | nil => simp [setkv]
  | cons p rest ih =>
    obtain ⟨k2, v2⟩ := p
    by_cases h : k2 = k
    · subst h
      simp [setkv]
      tauto
    · simp [setkv, h, ih]
      tauto

theorem nodupKeys_setkv {V : Type} {k : String} {v : V} {l : List (String × V)}
    (h : NodupKeys l) : NodupKeys (setkv k v l) := by
  induction l with
  | nil => simp [NodupKeys, setkv]
  | cons p rest ih =>
    obtain ⟨k2, v2⟩ := p
    simp only [NodupKeys, List.map_cons, List.nodup_cons] at h
    obtain ⟨hnotin, hrest⟩ := h
    by_cases hk : k2 = k
    · subst hk
      rw [setkv, if_pos rfl]
      simp only [NodupKeys, List.map_cons, List.nodup_cons]
      exact ⟨hnotin, hrest⟩
    · simp only [setkv, if_neg hk, NodupKeys, List.map_cons, List.nodup_cons]
      refine ⟨?_, ih hrest⟩
      intro hx
      rcases mem_map_fst_setkv.mp hx with hx2 | hx2
      · exact hnotin hx2
      · exact hk hx2

theorem mem_setkv {V : Type} {p : String × V} {k : String} {v : V} {l : List (String × V)}
    (h : p ∈ setkv k v l) : p = (k, v) ∨ p ∈ l := by
  induction l with
  | nil => simpa [setkv] using h
  | cons q rest ih =>
    obtain ⟨k2, v2⟩ := q
    by_cases hk : k2 = k
    · rw [setkv, if_pos hk] at h
      rcases List.mem_cons.mp h with h2 | h2
      · exact Or.inl h2
      · exact Or.inr (List.mem_cons_of_mem _ h2)
    · rw [setkv, if_neg hk] at h
      rcases List.mem_cons.mp h with h2 | h2
      · exact Or.inr (h2 ▸ List.mem_cons_self _ _)
      · rcases ih h2 with h3 | h3
        · exact Or.inl h3
        · exact Or.inr (List.mem_cons_of_mem _ h3)

theorem mem_updatekv {V : Type} {p : String × V} {k : String} {f : V → V}
    {l : List (String × V)} (h : p ∈ updatekv k f l) :
    p ∈ l ∨ ∃ w, (p.1, w) ∈ l ∧ p.2 = f w := by
  induction l with
  | nil => simp [updatekv] at h
  | cons q rest ih =>
    obtain ⟨k2, v2⟩ := q
    by_cases hk : k2 = k
    · rw [updatekv, if_pos hk] at h
      rcases List.mem_cons.mp h with h2 | h2
      · subst h2
        exact Or.inr ⟨v2, List.mem_cons_self _ _, rfl⟩
      · exact Or.inl (List.mem_cons_of_mem _ h2)
    · rw [updatekv, if_neg hk] at h
      rcases List.mem_cons.mp h with h2 | h2
      · exact Or.inl (h2 ▸ List.mem_cons_self _ _)
      · rcases ih h2 with h3 | ⟨w, hw, he⟩
        · exact Or.inl (List.mem_cons_of_mem _ h3)
        · exact Or.inr ⟨w, List.mem_cons_of_mem _ hw, he⟩

theorem nested_set_inv {W : Type} {acc : List (String × List (String × W))} {v m : String}
    {out : W} (houter : NodupKeys acc) (hinner : ∀ p ∈ acc, NodupKeys p.2) :
    NodupKeys (updatekv v (setkv m out)
        (if (getkv v acc).isSome then acc else setkv v [] acc)) ∧
    ∀ p ∈ updatekv v (setkv m out) (if (getkv v acc).isSome then acc else setkv v [] acc),
      NodupKeys p.2 := by
  have hacc1 : NodupKeys (if (getkv v acc).isSome then acc else setkv v [] acc) ∧
      ∀ p ∈ (if (getkv v acc).isSome then acc else setkv v [] acc), NodupKeys p.2 := by
    split
    · exact ⟨houter, hinner⟩
    · refine ⟨nodupKeys_setkv houter, ?_⟩
      intro p hp
      rcases mem_setkv hp with h2 | h2
      · rw [h2]
        simp [NodupKeys]
      · exact hinner p h2
  refine ⟨?_, ?_⟩
  · unfold NodupKeys
    rw [map_fst_updatekv]
    exact hacc1.1
  · intro p hp
    rcases mem_updatekv hp with h2 | ⟨w, hw, he⟩
    · exact hacc1.2 p h2
    · rw [he]
      exact nodupKeys_setkv (hacc1.2 (p.1, w) hw)

theorem chassisStep_inv {acc : List (String × List (String × ChassisOut))} {r : ChassisRow}
    (houter : NodupKeys acc) (hinner : ∀ p ∈ acc, NodupKeys p.2) :
    NodupKeys (chassisStep acc r) ∧ ∀ p ∈ chassisStep acc r, NodupKeys p.2 := by
  rw [chassisStep]
  split
  · exact nested_set_inv houter hinner
  · exact ⟨houter, hinner⟩

theorem process_chassis_inv (rows : List ChassisRow) :
    NodupKeys (process_chassis_data rows) ∧
    ∀ p ∈ process_chassis_data rows, NodupKeys p.2 := by
  suffices h : ∀ acc, (NodupKeys acc ∧ ∀ p ∈ acc, NodupKeys p.2) →
      NodupKeys (rows.foldl chassisStep acc) ∧
      ∀ p ∈ rows.foldl chassisStep acc, NodupKeys p.2 by
    exact h [] ⟨by simp [NodupKeys], by simp⟩
  induction rows with
  | nil =>
    intro acc h
    simpa using h
  | cons r rest ih =>
    intro acc h
    simp only [List.foldl_cons]
    exact ih _ (chassisStep_inv h.1 h.2)

theorem getkv_chassisStep_self {acc : List (String × List (String × ChassisOut))}
    {r : ChassisRow} {v m : String}
    (hv : pyOrS r.Vendor r.Column_1 = some v) (hv2 : v ≠ "")
    (hm : pyOrS r.Model r.Column_2 = some m) (hm2 : m ≠ "") :
    ∃ inner, getkv v (chassisStep acc r) = some inner ∧
      getkv m inner = some (mkChassisOut r) := by
  rw [chassisStep, hv, hm]
  rw [if_pos (by simp [truthyS, hv2, hm2])]
  simp only [Option.getD_some]
  have h1 : ∃ inner0, getkv v (if (getkv v acc).isSome then acc else setkv v [] acc) =
      some inner0 := by
    split
    · next hs => exact Option.isSome_iff_exists.mp hs
    · exact ⟨[], getkv_setkv_self v [] acc⟩
  obtain ⟨inner0, h0⟩ := h1
  refine ⟨setkv m (mkChassisOut r) inner0, ?_, getkv_setkv_self _ _ _⟩
  rw [getkv_updatekv_self, h0]
  rfl

/-- C10: the nested vendor→model map has pairwise-distinct keys at both
levels (exactly one entry per vendor-model pair); appending a valid row for
vendor v and model m makes its record the one stored under (v, m),
overwriting any earlier one (last write wins); and on two valid rows
sharing vendor V and model M the output has a single entry carrying the
attributes of the second row, strictly fewer entries than valid input rows. -/
theorem chassis_last_write_wins :
    (∀ rows, NodupKeys (process_chassis_data rows) ∧
      ∀ p ∈ process_chassis_data rows, NodupKeys p.2) ∧
    (∀ (rows : List ChassisRow) (r : ChassisRow) (v m : String),
      pyOrS r.Vendor r.Column_1 = some v → v ≠ "" →
      pyOrS r.Model r.Column_2 = some m → m ≠ "" →
      ∃ inner, getkv v (process_chassis_data (rows ++ [r])) = some inner ∧
        getkv m inner = some (mkChassisOut r)) ∧
    (process_chassis_data [chassisRowFirst, chassisRowSecond]).map
      (fun p => (p.1, p.2.map (fun q => (q.1, q.2.notes)))) =
      [("V", [("M", some "second")])] := by
  refine ⟨process_chassis_inv, ?_, by decide⟩
  intro rows r v m hv hv2 hm hm2
  have hstep : process_chassis_data (rows ++ [r]) =
      chassisStep (process_chassis_data rows) r := by
    simp [process_chassis_data, List.foldl_append]
  rw [hstep]
  exact getkv_chassisStep_self hv hv2 hm hm2

/-- Witness for the exit-code theorem at a concrete document. -/
theorem validator_exit_code_witness :
    ((vmain (.ok emptyCategoriesDoc) none).exitCode = 0 ↔
      (vmain (.ok emptyCategoriesDoc) none).errors = []) ∧
    ((vmain (.ok emptyCategoriesDoc) none).exitCode = 1 ↔
      (vmain (.ok emptyCategoriesDoc) none).errors ≠ []) ∧
    (vmain .notFound none).exitCode = 1 ∧
    (vmain .parseFailure none).exitCode = 1 :=
  validator_exit_code emptyCategoriesDoc none

/-- Witness for the last-write-wins theorem at a concrete row. -/
theorem chassis_last_write_wins_witness :
    ∃ inner, getkv "V" (process_chassis_data ([] ++ [chassisRowSecond])) = some inner ∧
      getkv "M" inner = some (mkChassisOut chassisRowSecond) :=
  chassis_last_write_wins.2.1 [] chassisRowSecond "V" "M" (by decide) (by decide)
    (by decide) (by decide)

end MinioHW
